import Mathlib

/-!
Verification development for a minimal MCP-style RPC transport
(an HTTP/SSE weather demo: a server dispatching JSON-RPC messages and
fanning responses out to SSE subscriber queues, and a client correlating
replies by message id).

The embedding mirrors the Python source.  JSON values decoded by
`json.loads` are modelled by the inductive `Json` (objects are key/value
lists with distinct keys, as produced by a decoder where the last
duplicate wins).  A raised Python exception is modelled by `Except.error`
carrying `str(e)`; Python attribute/index/slice semantics on decoded JSON
values are modelled by the `py*` helpers below, including the exact
exception messages CPython produces.
-/

namespace McpDemo

/-- A decoded JSON value (the result of Python `json.loads`). Numbers are
restricted to integers, which covers every value this program produces. -/
inductive Json where
  | null
  | bool (b : Bool)
  | num (n : Int)
  | str (s : String)
  | arr (xs : List Json)
  | obj (fields : List (String × Json))

/-- Python type name of a value, as used in exception messages. -/
def Json.typeName : Json → String
  | .null => "NoneType"
  | .bool _ => "bool"
  | .num _ => "int"
  | .str _ => "str"
  | .arr _ => "list"
  | .obj _ => "dict"

mutual

/-- Python `repr` of a decoded JSON value. -/
def Json.pyRepr : Json → String
  | .null => "None"
  | .bool b => if b then "True" else "False"
  | .num n => toString n
  | .str s => "'" ++ s ++ "'"
  | .arr xs => "[" ++ String.intercalate ", " (Json.pyReprList xs) ++ "]"
  | .obj fs => "\x7b" ++ String.intercalate ", " (Json.pyReprFields fs) ++ "\x7d"

/-- Helper for `Json.pyRepr`: reprs of the elements of a list. -/
def Json.pyReprList : List Json → List String
  | [] => []
  | x :: xs => x.pyRepr :: Json.pyReprList xs

/-- Helper for `Json.pyRepr`: reprs of the entries of a dict. -/
def Json.pyReprFields : List (String × Json) → List String
  | [] => []
  | (k, v) :: fs => ("'" ++ k ++ "': " ++ v.pyRepr) :: Json.pyReprFields fs

end

/-- Python `str` of a decoded JSON value (as used by f-string formatting):
identical to `repr` except on strings. -/
def Json.pyStr : Json → String
  | .str s => s
  | j => j.pyRepr

/-- Python truthiness of a decoded JSON value. -/
def Json.truthy : Json → Bool
  | .null => false
  | .bool b => b
  | .num n => n != 0
  | .str s => s != ""
  | .arr xs => !xs.isEmpty
  | .obj fs => !fs.isEmpty

/-- Python `d.get(key, deflt)`: raises `AttributeError` (modelled as
`Except.error` with CPython's message) when the receiver is not a dict. -/
def Json.pyGet (j : Json) (key : String) (deflt : Json) : Except String Json :=
  match j with
  | .obj fs => .ok ((fs.lookup key).getD deflt)
  | _ => .error ("'" ++ j.typeName ++ "' object has no attribute 'get'")

/-- Python subscription `x[key]` with a string key: `KeyError` on a dict
missing the key (whose `str` is the repr of the key), `TypeError`
otherwise. -/
def Json.pyIndexStr (j : Json) (key : String) : Except String Json :=
  match j with
  | .obj fs =>
      match fs.lookup key with
      | some v => .ok v
      | none => .error ("'" ++ key ++ "'")
  | .arr _ => .error "list indices must be integers or slices, not str"
  | .str _ => .error "string indices must be integers"
  | _ => .error ("'" ++ j.typeName ++ "' object is not subscriptable")

/-- Python subscription `x[i]` with an integer index (negative indices
count from the end). On a dict this is a `KeyError` whose `str` is the
repr of the integer key. -/
def Json.pyIndexInt (j : Json) (i : Int) : Except String Json :=
  match j with
  | .arr xs =>
      let k := if i < 0 then i + xs.length else i
      if h : 0 ≤ k ∧ k.toNat < xs.length then .ok (xs.get ⟨k.toNat, h.2⟩)
      else .error "list index out of range"
  | .str s =>
      let cs := s.toList
      let k := if i < 0 then i + cs.length else i
      if h : 0 ≤ k ∧ k.toNat < cs.length then .ok (.str (String.mk [cs.get ⟨k.toNat, h.2⟩]))
      else .error "string index out of range"
  | .obj _ => .error (toString i)
  | _ => .error ("'" ++ j.typeName ++ "' object is not subscriptable")

/-- Python `xs[:k]` on a list, for an integer bound (negative bounds count
from the end, clamped at zero). -/
def pyTake {α : Type} (xs : List α) (k : Int) : List α :=
  if 0 ≤ k then xs.take k.toNat else xs.take (xs.length - (-k).toNat)

/-- Python slice `x[:n]` where the bound `n` is itself a decoded JSON
value: integers and booleans slice (a bool is an int in Python), `None`
means "to the end", anything else is a `TypeError`. -/
def Json.pySliceTo (j : Json) (n : Json) : Except String Json :=
  match j, n with
  | .arr xs, .num k => .ok (.arr (pyTake xs k))
  | .arr xs, .bool b => .ok (.arr (pyTake xs (if b then 1 else 0)))
  | .arr xs, .null => .ok (.arr xs)
  | .arr _, _ => .error "slice indices must be integers or None or have an __index__ method"
  | .str s, .num k => .ok (.str (String.mk (pyTake s.toList k)))
  | .str s, .bool b => .ok (.str (String.mk (pyTake s.toList (if b then 1 else 0))))
  | .str s, .null => .ok (.str s)
  | .str _, _ => .error "slice indices must be integers or None or have an __index__ method"
  | .obj _, _ => .error "unhashable type: 'slice'"
  | _, _ => .error ("'" ++ j.typeName ++ "' object is not subscriptable")

/-- Python iteration `for x in j`: lists yield elements, strings yield
one-character strings, dicts yield their keys. -/
def Json.pyIter : Json → Except String (List Json)
  | .arr xs => .ok xs
  | .str s => .ok (s.toList.map fun c => .str (String.mk [c]))
  | .obj fs => .ok (fs.map fun kv => .str kv.1)
  | j => .error ("'" ++ j.typeName ++ "' object is not iterable")

/-- Python `v == m` for a decoded JSON value against an int (`True == 1`
and `False == 0` hold in Python). -/
def Json.pyEqInt : Json → Int → Bool
  | .num n, m => n == m
  | .bool b, m => (if b then (1 : Int) else 0) == m
  | _, _ => false

/-- Python `v == t` for a decoded JSON value against a string literal:
only a string compares equal to a string. -/
def Json.pyEqStr : Json → String → Bool
  | .str s, t => s == t
  | _, _ => false

/-! ## Server (src/server/weather_server.py)

The weather API (`httpx` GET of wttr.in plus `response.json()`) is the
external collaborator; it is modelled by an oracle
`fetch : String → Except String Json` mapping the request URL to the
decoded payload, or to `str(e)` of the exception the HTTP layer raised. -/

/-- One `TextContent` block (mcp.types.TextContent with `type`/`text`). -/
structure TextContent where
  type : String
  text : String

/-- The source `fetch_weather_data`: builds the wttr.in URL from the city
and re-raises any failure as `Exception("Failed to fetch weather data: " + str(e))`. -/
def fetch_weather_data (fetch : String → Except String Json) (city : Json) :
    Except String Json :=
  match fetch ("https://wttr.in/" ++ city.pyStr ++ "?format=j1") with
  | .ok data => .ok data
  | .error e => .error ("Failed to fetch weather data: " ++ e)

/-- Body of the `try` block of the `get_current_weather` branch of
`call_tool`: field accesses on the fetched payload and the formatted
text; any raised exception propagates as `Except.error`. -/
def currentWeatherText (fetch : String → Except String Json) (city : Json) :
    Except String String := do
  let data ← fetch_weather_data fetch city
  let ccArr ← data.pyIndexStr "current_condition"
  let current ← ccArr.pyIndexInt 0
  let tempC ← current.pyIndexStr "temp_C"
  let tempF ← current.pyIndexStr "temp_F"
  let wdArr ← current.pyIndexStr "weatherDesc"
  let wd0 ← wdArr.pyIndexInt 0
  let condition ← wd0.pyIndexStr "value"
  let humidity ← current.pyIndexStr "humidity"
  let windSpeed ← current.pyIndexStr "windspeedKmph"
  let windDir ← current.pyIndexStr "winddir16Point"
  pure ("Current Weather in " ++ city.pyStr ++ ":\nTemperature: " ++ tempC.pyStr
    ++ "°C (" ++ tempF.pyStr ++ "°F)\nCondition: " ++ condition.pyStr
    ++ "\nHumidity: " ++ humidity.pyStr ++ "%\nWind: " ++ windSpeed.pyStr
    ++ " km/h " ++ windDir.pyStr)

/-- One iteration of the forecast loop in `call_tool`: the per-day line. -/
def forecastLine (day : Json) : Except String String := do
  let date ← day.pyIndexStr "date"
  let maxTemp ← day.pyIndexStr "maxtempC"
  let minTemp ← day.pyIndexStr "mintempC"
  let hourly ← day.pyIndexStr "hourly"
  let h0 ← hourly.pyIndexInt 0
  let wdArr ← h0.pyIndexStr "weatherDesc"
  let wd0 ← wdArr.pyIndexInt 0
  let condition ← wd0.pyIndexStr "value"
  pure ("📅 " ++ date.pyStr ++ ": " ++ minTemp.pyStr ++ "°C - " ++ maxTemp.pyStr
    ++ "°C, " ++ condition.pyStr)

/-- The forecast loop of `call_tool`: per-day lines in order, first
raised exception propagating. -/
def forecastLinesM : List Json → Except String (List String)
  | [] => .ok []
  | d :: ds => do
      let line ← forecastLine d
      let rest ← forecastLinesM ds
      pure (line :: rest)

/-- Body of the `try` block of the `get_forecast` branch of `call_tool`:
slices the fetched forecast list to `days` entries and joins the header
and the per-day lines with newlines. -/
def forecastText (fetch : String → Except String Json) (city days : Json) :
    Except String String := do
  let data ← fetch_weather_data fetch city
  let weather ← data.pyIndexStr "weather"
  let weather_forecast ← weather.pySliceTo days
  let header := days.pyStr ++ "-Day Weather Forecast for " ++ city.pyStr ++ ":\n"
  let dayItems ← weather_forecast.pyIter
  let lines ← forecastLinesM dayItems
  pure (String.intercalate "\n" (header :: lines))

/-- The source `call_tool` (weather_server.py): the collaborator invoked
by the dispatcher.  `Except.error` models an exception escaping it (the
`arguments.get` calls sit outside the internal `try`); every failure
inside a known tool's `try` block is caught and returned as an
`Error: ...` text block. -/
def call_tool (fetch : String → Except String Json) (name arguments : Json) :
    Except String (List TextContent) :=
  if name.pyEqStr "get_current_weather" then do
    let city ← arguments.pyGet "city" .null
    if !city.truthy then
      pure [⟨"text", "Error: City parameter is required"⟩]
    else
      match currentWeatherText fetch city with
      | .ok s => pure [⟨"text", s⟩]
      | .error e => pure [⟨"text", "Error: " ++ e⟩]
  else if name.pyEqStr "get_forecast" then do
    let city ← arguments.pyGet "city" .null
    let days ← arguments.pyGet "days" (.num 3)
    if !city.truthy then
      pure [⟨"text", "Error: City parameter is required"⟩]
    else
      match forecastText fetch city days with
      | .ok s => pure [⟨"text", s⟩]
      | .error e => pure [⟨"text", "Error: " ++ e⟩]
  else
    pure [⟨"text", "Error: Unknown tool '" ++ name.pyStr ++ "'"⟩]

/-- A capability descriptor (mcp.types.Tool). -/
structure Tool where
  name : String
  description : String
  inputSchema : Json

/-- The `city` property schema shared by both tools in `list_tools`. -/
def citySchema : Json :=
  .obj [("type", .str "string"),
        ("description", .str "City name (e.g., London, Tokyo, New York)")]

/-- The `get_current_weather` tool declared by `list_tools`. -/
def get_current_weather_tool : Tool :=
  { name := "get_current_weather"
    description := "Get current weather conditions for a city"
    inputSchema := .obj [("type", .str "object"),
      ("properties", .obj [("city", citySchema)]),
      ("required", .arr [.str "city"])] }

/-- The `get_forecast` tool declared by `list_tools`; note that its
schema lists both `city` and `days` as required. -/
def get_forecast_tool : Tool :=
  { name := "get_forecast"
    description := "Get weather forecast for a city"
    inputSchema := .obj [("type", .str "object"),
      ("properties", .obj [("city", citySchema),
        ("days", .obj [("type", .str "integer"),
          ("description", .str "Number of days for forecast (1-3)"),
          ("minimum", .num 1), ("maximum", .num 3)])]),
      ("required", .arr [.str "city", .str "days"])] }

/-- The source `list_tools` (weather_server.py). -/
def list_tools : List Tool := [get_current_weather_tool, get_forecast_tool]

/-- Outcome of a JSON-RPC response envelope: a `result` field or an
`error` field with code and message. -/
inductive Outcome where
  | success (result : Json)
  | failure (code : Int) (message : String)

/-- A JSON-RPC response envelope as built by `handle_message` (the
`jsonrpc: "2.0"` tag is constant and kept in the serialization). The id
is the `id` value echoed from the request body. -/
structure RpcResponse where
  id : Json
  outcome : Outcome

/-- Serialization of a content block into the `result.content` array. -/
def contentJson (c : TextContent) : Json :=
  .obj [("type", .str c.type), ("text", .str c.text)]

/-- Serialization of a tool descriptor for the `tools/list` result. -/
def toolJson (t : Tool) : Json :=
  .obj [("name", .str t.name), ("description", .str t.description),
        ("inputSchema", t.inputSchema)]

/-- Wire form of a response envelope, as `json.dumps` would emit it. -/
def RpcResponse.toJson (r : RpcResponse) : Json :=
  match r.outcome with
  | .success res =>
      .obj [("jsonrpc", .str "2.0"), ("id", r.id), ("result", res)]
  | .failure code msg =>
      .obj [("jsonrpc", .str "2.0"), ("id", r.id),
            ("error", .obj [("code", .num code), ("message", .str msg)])]

/-- The fixed `initialize` result built by `handle_message`. -/
def initResult : Json :=
  .obj [("protocolVersion", .str "2024-11-05"),
        ("capabilities", .obj [("tools", .obj [])]),
        ("serverInfo", .obj [("name", .str "weather-server"),
                             ("version", .str "1.0.0")])]

/-- The dispatching core of `handle_message`: from the decoded request
body to the single response envelope.  `Except.error` models an
exception raised while processing (caught by the handler's outer
`except`).  The dispatcher keeps no session state: it is a pure function
of the body alone. -/
def dispatch (fetch : String → Except String Json) (body : Json) :
    Except String RpcResponse := do
  let method ← body.pyGet "method" .null
  let params ← body.pyGet "params" (.obj [])
  let msg_id ← body.pyGet "id" .null
  if method.pyEqStr "initialize" then
    pure ⟨msg_id, .success initResult⟩
  else if method.pyEqStr "tools/list" then
    pure ⟨msg_id, .success (.obj [("tools", .arr (list_tools.map toolJson))])⟩
  else if method.pyEqStr "tools/call" then do
    let tool_name ← params.pyGet "name" .null
    let arguments ← params.pyGet "arguments" (.obj [])
    let result ← call_tool fetch tool_name arguments
    pure ⟨msg_id, .success (.obj [("content", .arr (result.map contentJson))])⟩
  else
    pure ⟨msg_id, .failure (-32601) ("Method not found: " ++ method.pyStr)⟩

/-- The direct HTTP reply of the `/message` endpoint: 200 with a body, or
500 with an error body (from the outer `except` of `handle_message`). -/
inductive HttpReply where
  | ok (body : Json)
  | serverError (body : Json)

/-- HTTP status code of a reply (`Response` defaults to 200; the outer
`except` sets 500). -/
def HttpReply.status : HttpReply → Nat
  | .ok _ => 200
  | .serverError _ => 500

/-- The source `handle_message`: dispatches the body, fans the computed
envelope out to every queue in `sse_connections`, and replies
`{"status": "ok"}` over HTTP; an exception raised while processing is
caught and answered with a 500 `{"error": str(e)}` reply, with no
fan-out. -/
def handle_message (fetch : String → Except String Json)
    (sse_connections : List (List RpcResponse)) (body : Json) :
    List (List RpcResponse) × HttpReply :=
  match dispatch fetch body with
  | .ok response =>
      (sse_connections.map (fun q => q ++ [response]),
       .ok (.obj [("status", .str "ok")]))
  | .error e =>
      (sse_connections, .serverError (.obj [("error", .str e)]))

/-! ## Client (src/client/weather_client.py) -/

/-- The source `_next_id`: increments the session counter and returns the
new value, so issued ids are strictly increasing. -/
def next_id (message_id : Nat) : Nat × Nat :=
  (message_id + 1, message_id + 1)

/-- The source `_sse_listener` loop, applied to the sequence of SSE frame
payloads the stream delivers: each frame is decoded (`json.loads`,
modelled by the `decode` oracle); a decoded value is enqueued on the
response queue, a `JSONDecodeError` is swallowed and the loop continues
with the next frame.  The result is the sequence of enqueued values. -/
def sse_listener (decode : String → Except Unit Json) :
    List String → List Json
  | [] => []
  | frame :: rest =>
      match decode frame with
      | .ok data => data :: sse_listener decode rest
      | .error _ => sse_listener decode rest

/-- The wait loop of the source `_send_request`, applied to the sequence
of values the response queue will ever deliver: it takes queued values
one by one and returns the first whose `"id"` entry compares equal to
the issued `msg_id`.  `.ok none` means the loop consumed every value the
queue will ever hold and is still blocked in `queue.get()`;
`.error e` models `response.get` raising on a non-dict queue value. -/
def awaitResponse (msg_id : Int) : List Json → Except String (Option Json)
  | [] => .ok none
  | response :: rest => do
      let v ← response.pyGet "id" .null
      if v.pyEqInt msg_id then pure (some response) else awaitResponse msg_id rest

/-- Whether a queued value is a dict whose `"id"` entry compares equal to
`msg_id` — the test `response.get("id") == msg_id` of `_send_request`. -/
def matchesId (msg_id : Int) (response : Json) : Bool :=
  match response with
  | .obj fs => ((fs.lookup "id").getD .null).pyEqInt msg_id
  | _ => false

/-- Whether an envelope is a Failure Response (carries an `error` field). -/
def Outcome.isFailure : Outcome → Bool
  | .success _ => false
  | .failure _ _ => true

/-! ## Concrete oracles and inputs used to evaluate the model -/

/-- A fetch oracle for scenarios where the weather API is unreachable. -/
def fetchUnavailable : String → Except String Json := fun _ => .error "no network"

/-- A concrete decode oracle: fails on the frame "bad", decodes any other
frame to a JSON string. -/
def decodeStub : String → Except Unit Json := fun s =>
  if s = "bad" then .error () else .ok (.str s)

/-- A well-formed forecast day record shaped like the wttr.in payload. -/
def dayJson (d mx mn c : String) : Json :=
  .obj [("date", .str d), ("maxtempC", .str mx), ("mintempC", .str mn),
        ("hourly", .arr [.obj [("weatherDesc", .arr [.obj [("value", .str c)]])]])]

/-- A fetch oracle answering the Tokyo forecast URL with four days of
data. -/
def fetchTokyo : String → Except String Json := fun url =>
  if url = "https://wttr.in/Tokyo?format=j1" then
    .ok (.obj [("weather", .arr
      [dayJson "2026-10-12" "20" "10" "Sunny",
       dayJson "2026-10-13" "21" "11" "Rain",
       dayJson "2026-10-14" "22" "12" "Cloudy",
       dayJson "2026-10-15" "23" "13" "Snow"])])
  else .error "404"

/-- A tools/call request body naming the unregistered capability "bogus". -/
def bodyBogus : Json :=
  .obj [("jsonrpc", .str "2.0"), ("method", .str "tools/call"),
        ("params", .obj [("name", .str "bogus"), ("arguments", .obj [])]),
        ("id", .num 7)]

/-- A tools/call request body whose `arguments` value is a string rather
than an object, so the collaborator's `arguments.get` raises. -/
def bodyStrArgs : Json :=
  .obj [("method", .str "tools/call"), ("id", .num 9),
        ("params", .obj [("name", .str "get_forecast"),
                         ("arguments", .str "oops")])]

/-! ## Reduction lemmas for the `Except` monad -/

/-- Bind on `Except` applied to an ok value reduces to the continuation. -/
theorem exceptBind_ok {ε α β : Type} (a : α) (f : α → Except ε β) :
    (Except.ok a : Except ε α) >>= f = f a := rfl

/-- Bind on `Except` applied to an error propagates the error. -/
theorem exceptBind_error {ε α β : Type} (e : ε) (f : α → Except ε β) :
    (Except.error e : Except ε α) >>= f = Except.error e := rfl

/-- Pure on `Except` is `Except.ok`. -/
theorem exceptPure {ε α : Type} (a : α) :
    (pure a : Except ε α) = Except.ok a := rfl

/-- Map on `Except` applied to an ok value. -/
theorem exceptMap_ok {ε α β : Type} (f : α → β) (a : α) :
    (f <$> (Except.ok a : Except ε α)) = Except.ok (f a) := rfl

/-- Map on `Except` applied to an error. -/
theorem exceptMap_error {ε α β : Type} (f : α → β) (e : ε) :
    (f <$> (Except.error e : Except ε α)) = Except.error e := rfl

/-! ## Claims -/

/-- C1, counterexample.  The claim says a `tools/call` request for an
unregistered capability name yields a Failure Response (an envelope with
an `error` field carrying a "not found" code) and never a Success.  On
the concrete request `bodyBogus` (name "bogus", id 7) the server instead
produces a Success Response: a `result` envelope whose single content
block is the text `Error: Unknown tool 'bogus'`, and no `error` field. -/
theorem unknown_capability_success_counterexample :
    dispatch fetchUnavailable bodyBogus =
      .ok ⟨.num 7, .success (.obj [("content", .arr [.obj
        [("type", .str "text"),
         ("text", .str "Error: Unknown tool 'bogus'")]])])⟩ ∧
    (dispatch fetchUnavailable bodyBogus).map (fun r => r.outcome.isFailure) =
      .ok false :=
  ⟨rfl, rfl⟩

/-- C1, amended.  For every `tools/call` request whose `params.name` is
not one of the two declared capability names, `handle_message` computes a
Success Response whose single content block is the text
`Error: Unknown tool '<name>'`, fans it out to every subscriber queue and
replies `{"status": "ok"}`; no Failure envelope is produced. -/
theorem unknown_capability_text_error (fetch : String → Except String Json)
    (subs : List (List RpcResponse)) (msgId name args : Json)
    (h1 : name.pyEqStr "get_current_weather" = false)
    (h2 : name.pyEqStr "get_forecast" = false) :
    handle_message fetch subs
      (.obj [("method", .str "tools/call"),
             ("params", .obj [("name", name), ("arguments", args)]),
             ("id", msgId)]) =
      (subs.map (fun q => q ++ [⟨msgId, .success (.obj [("content", .arr
        [.obj [("type", .str "text"),
               ("text", .str ("Error: Unknown tool '" ++ name.pyStr ++ "'"))]])])⟩]),
       .ok (.obj [("status", .str "ok")])) := by
  simp [handle_message, dispatch, call_tool, Json.pyGet,
    List.lookup, h1, h2, contentJson, exceptBind_ok, exceptBind_error,
    exceptPure, exceptMap_ok, exceptMap_error,
    show (Json.str "tools/call").pyEqStr "initialize" = false from rfl,
    show (Json.str "tools/call").pyEqStr "tools/list" = false from rfl,
    show (Json.str "tools/call").pyEqStr "tools/call" = true from rfl]

/-- C1, witness for the amended theorem at name "bogus", id 7, one empty
subscriber queue. -/
theorem unknown_capability_text_error_witness :
    (Json.str "bogus").pyEqStr "get_current_weather" = false ∧
    (Json.str "bogus").pyEqStr "get_forecast" = false ∧
    handle_message fetchUnavailable [[]]
      (.obj [("method", .str "tools/call"),
             ("params", .obj [("name", .str "bogus"), ("arguments", .obj [])]),
             ("id", .num 7)]) =
      ([[⟨.num 7, .success (.obj [("content", .arr
        [.obj [("type", .str "text"),
               ("text", .str "Error: Unknown tool 'bogus'")]])])⟩]],
       .ok (.obj [("status", .str "ok")])) :=
  ⟨rfl, rfl, by
    have h := unknown_capability_text_error fetchUnavailable [[]] (.num 7)
      (.str "bogus") (.obj []) rfl rfl
    simpa using h⟩

/-- C2, counterexample.  The claim says an error raised by the invoked
collaborator is mapped to a Failure Response for the request id rather
than a transport-level fault.  On the concrete request `bodyStrArgs`
(`arguments` is the string "oops", so the collaborator's
`arguments.get("city")` raises `AttributeError`), the server instead
answers the HTTP POST with a 500 `{"error": ...}` reply and enqueues no
Response envelope at all for id 9: the subscriber queue stays empty. -/
theorem collaborator_error_failure_counterexample :
    handle_message fetchUnavailable [[]] bodyStrArgs =
      ([[]], .serverError (.obj [("error",
        .str "'str' object has no attribute 'get'")])) ∧
    (handle_message fetchUnavailable [[]] bodyStrArgs).2.status = 500 :=
  ⟨rfl, rfl⟩

/-- C2, amended.  Errors of the weather collaborator are handled at two
levels, neither a Failure envelope: (a) a failure of the weather fetch
inside a known tool is caught within `call_tool` and returned as a
Success Response whose content text is `Error: Failed to fetch weather
data: <message>`; the envelope is fanned out and the HTTP reply is
`{"status": "ok"}`, so the session keeps serving.  (b) An exception that
escapes `call_tool` (e.g. non-object `arguments`) is caught by the
handler's outer `except` and answered with an HTTP 500 `{"error":
<message>}` reply, with no envelope fanned out and the subscriber state
unchanged. -/
theorem collaborator_error_handling :
    (∀ (fetch : String → Except String Json) (subs : List (List RpcResponse))
       (msgId city : Json) (e : String),
       city.truthy = true →
       fetch ("https://wttr.in/" ++ city.pyStr ++ "?format=j1") = .error e →
       handle_message fetch subs
         (.obj [("method", .str "tools/call"),
                ("params", .obj [("name", .str "get_current_weather"),
                                 ("arguments", .obj [("city", city)])]),
                ("id", msgId)]) =
         (subs.map (fun q => q ++ [⟨msgId, .success (.obj [("content", .arr
           [.obj [("type", .str "text"),
                  ("text", .str ("Error: " ++ ("Failed to fetch weather data: " ++ e)))]])])⟩]),
          .ok (.obj [("status", .str "ok")]))) ∧
    (∀ (fetch : String → Except String Json) (subs : List (List RpcResponse))
       (body : Json) (e : String),
       dispatch fetch body = .error e →
       handle_message fetch subs body =
         (subs, .serverError (.obj [("error", .str e)]))) := by
  constructor
  · intro fetch subs msgId city e hcity hfetch
    simp [handle_message, dispatch, call_tool, currentWeatherText,
      fetch_weather_data, Json.pyGet, List.lookup, hcity, hfetch,
      exceptBind_ok, exceptBind_error, exceptPure, exceptMap_ok,
      exceptMap_error, contentJson,
      show (Json.str "tools/call").pyEqStr "initialize" = false from rfl,
      show (Json.str "tools/call").pyEqStr "tools/list" = false from rfl,
      show (Json.str "tools/call").pyEqStr "tools/call" = true from rfl,
      show (Json.str "get_current_weather").pyEqStr "get_current_weather" = true from rfl]
  · intro fetch subs body e hdisp
    simp [handle_message, hdisp]

/-- C2, witness: both parts of the amended theorem evaluated at concrete
inputs (an unreachable weather API for part (a), `bodyStrArgs` for
part (b)). -/
theorem collaborator_error_handling_witness :
    handle_message fetchUnavailable [[]]
      (.obj [("method", .str "tools/call"),
             ("params", .obj [("name", .str "get_current_weather"),
                              ("arguments", .obj [("city", .str "London")])]),
             ("id", .num 4)]) =
      ([[⟨.num 4, .success (.obj [("content", .arr
        [.obj [("type", .str "text"),
               ("text", .str "Error: Failed to fetch weather data: no network")]])])⟩]],
       .ok (.obj [("status", .str "ok")])) ∧
    handle_message fetchUnavailable [[]] bodyStrArgs =
      ([[]], .serverError (.obj [("error",
        .str "'str' object has no attribute 'get'")])) :=
  ⟨by
    have h := collaborator_error_handling.1 fetchUnavailable [[]] (.num 4)
      (.str "London") "no network" rfl rfl
    simpa using h,
   collaborator_error_handling.2 fetchUnavailable [[]] bodyStrArgs
     "'str' object has no attribute 'get'" rfl⟩

/-- C3, counterexample.  The claim says the wait in `_send_request`
always terminates, surfacing a typed failure (e.g. a timeout) when no
response with a matching id ever arrives.  On an inbound stream that
delivers a single envelope with the non-matching id 2 and then nothing
else, the wait loop for id 1 consumes the whole stream and is still
blocked in `queue.get()` (`.ok none`): no value is returned and no
failure of any kind is surfaced — the code has no timeout on this wait. -/
theorem send_request_blocks_counterexample :
    awaitResponse 1 [.obj [("jsonrpc", .str "2.0"), ("id", .num 2)]] = .ok none ∧
    awaitResponse 1 [] = .ok none :=
  ⟨rfl, rfl⟩

/-- C3, amended.  The wait loop of `_send_request` returns only when a
response whose `"id"` entry compares equal to the issued id arrives: on
any stream in which every delivered value has a readable, non-matching
id, the loop consumes the entire stream and remains blocked, with no
timeout failure or other typed failure surfaced (the caller-supplied
httpx timeout covers only the POST, not this wait). -/
theorem send_request_blocks_without_match (msg_id : Int) (stream : List Json)
    (h : ∀ r ∈ stream, ∃ v, r.pyGet "id" .null = .ok v ∧ v.pyEqInt msg_id = false) :
    awaitResponse msg_id stream = .ok none := by
  induction stream with
  | nil => rfl
  | cons r rest ih =>
      obtain ⟨v, hv, hne⟩ := h r (by simp)
      have hrest := ih (fun x hx => h x (by simp [hx]))
      simp [awaitResponse, hv, hne, exceptBind_ok, hrest]

/-- C3, witness: the amended theorem applied to the one-envelope stream
with id 2, waited on for id 1. -/
theorem send_request_blocks_without_match_witness :
    (∀ r ∈ [Json.obj [("id", Json.num 2)]],
       ∃ v, r.pyGet "id" .null = .ok v ∧ v.pyEqInt 1 = false) ∧
    awaitResponse 1 [Json.obj [("id", Json.num 2)]] = .ok none :=
  ⟨fun r hr => by
      simp only [List.mem_singleton] at hr
      exact ⟨.num 2, by simp [hr, Json.pyGet, List.lookup], by simp [hr, Json.pyEqInt]⟩,
   send_request_blocks_without_match 1 [Json.obj [("id", Json.num 2)]]
     (fun r hr => by
      simp only [List.mem_singleton] at hr
      exact ⟨.num 2, by simp [hr, Json.pyGet, List.lookup], by simp [hr, Json.pyEqInt]⟩)⟩

/-- C4.  On any stream of well-formed (dict) queued values, the wait loop
of `_send_request` returns exactly the first queued response whose `"id"`
entry compares equal to the issued id (`List.find?`): every earlier,
non-matching response is consumed and discarded without raising, nothing
after the first match is consumed, and the single waiter is resolved at
most once. -/
theorem send_request_first_match (msg_id : Int) (stream : List Json)
    (hobj : ∀ r ∈ stream, ∃ fs, r = Json.obj fs) :
    awaitResponse msg_id stream = .ok (stream.find? (matchesId msg_id)) := by
  induction stream with
  | nil => rfl
  | cons r rest ih =>
      obtain ⟨fs, rfl⟩ := hobj r (by simp)
      have hrest := ih (fun x hx => hobj x (by simp [hx]))
      cases hm : ((fs.lookup "id").getD Json.null).pyEqInt msg_id with
      | true =>
          have hmm : matchesId msg_id (Json.obj fs) = true := by
            simp [matchesId, hm]
          rw [List.find?_cons_of_pos _ hmm]
          simp [awaitResponse, Json.pyGet, exceptBind_ok, hm, exceptPure]
      | false =>
          have hmm : ¬ matchesId msg_id (Json.obj fs) = true := by
            simp [matchesId, hm]
          rw [List.find?_cons_of_neg _ hmm]
          simp [awaitResponse, Json.pyGet, exceptBind_ok, hm, hrest]

/-- C4, witness: a stream holding a non-matching envelope, then two
envelopes with id 1; the wait for id 1 returns the first of the two. -/
theorem send_request_first_match_witness :
    (∀ r ∈ [Json.obj [("id", Json.num 2)],
            Json.obj [("id", Json.num 1), ("result", Json.null)],
            Json.obj [("id", Json.num 1)]], ∃ fs, r = Json.obj fs) ∧
    awaitResponse 1 [Json.obj [("id", Json.num 2)],
            Json.obj [("id", Json.num 1), ("result", Json.null)],
            Json.obj [("id", Json.num 1)]] =
      .ok (some (Json.obj [("id", Json.num 1), ("result", Json.null)])) :=
  ⟨fun r hr => by
      simp only [List.mem_cons, List.mem_singleton] at hr
      rcases hr with h | h | h | h
      · exact ⟨_, h⟩
      · exact ⟨_, h⟩
      · exact ⟨_, h⟩
      · exact absurd h (by simp),
   by
    have h := send_request_first_match 1
      [Json.obj [("id", Json.num 2)],
       Json.obj [("id", Json.num 1), ("result", Json.null)],
       Json.obj [("id", Json.num 1)]]
      (fun r hr => by
        simp only [List.mem_cons, List.mem_singleton] at hr
        rcases hr with h | h | h | h
        · exact ⟨_, h⟩
        · exact ⟨_, h⟩
        · exact ⟨_, h⟩
        · exact absurd h (by simp))
    simpa using h⟩

/-- C5.  For every request body (a dict) whose `"method"` entry is none
of the three built-ins, `dispatch` produces a Failure Response carrying
the body's `"id"` value and the error code -32601 with message
`Method not found: <method>`.  The dispatcher is a pure function of the
body alone — the server keeps no per-session dispatch state — so no
state transition is performed. -/
theorem unknown_method_failure (fetch : String → Except String Json)
    (fields : List (String × Json))
    (h1 : ((fields.lookup "method").getD .null).pyEqStr "initialize" = false)
    (h2 : ((fields.lookup "method").getD .null).pyEqStr "tools/list" = false)
    (h3 : ((fields.lookup "method").getD .null).pyEqStr "tools/call" = false) :
    dispatch fetch (.obj fields) =
      .ok ⟨(fields.lookup "id").getD .null,
           .failure (-32601)
             ("Method not found: " ++ ((fields.lookup "method").getD .null).pyStr)⟩ := by
  simp [dispatch, Json.pyGet, exceptBind_ok, exceptPure, h1, h2, h3]

/-- C5, witness: the unregistered method "capabilities/ping" with id 5 is
answered by the -32601 Failure envelope for id 5. -/
theorem unknown_method_failure_witness :
    ((([("method", Json.str "capabilities/ping"), ("id", Json.num 5)] :
        List (String × Json)).lookup "method").getD .null).pyEqStr "initialize" = false ∧
    dispatch fetchUnavailable
      (.obj [("method", .str "capabilities/ping"), ("id", .num 5)]) =
      .ok ⟨.num 5, .failure (-32601) "Method not found: capabilities/ping"⟩ :=
  ⟨rfl, by
    have h := unknown_method_failure fetchUnavailable
      [("method", .str "capabilities/ping"), ("id", .num 5)] rfl rfl rfl
    simpa using h⟩

/-- C6.  Every computed Response envelope is fanned out to every
subscriber queue in the set connected at the time of fan-out — not only
to the originating peer's queue: whenever dispatch produces an envelope,
the new subscriber state is exactly the old one with that envelope
appended to every queue. -/
theorem fanout_to_all_subscribers (fetch : String → Except String Json)
    (subs : List (List RpcResponse)) (body : Json) (response : RpcResponse)
    (h : dispatch fetch body = .ok response) :
    (handle_message fetch subs body).1 = subs.map (fun q => q ++ [response]) := by
  simp [handle_message, h]

/-- C6, witness: two connected subscribers; the Failure envelope computed
for an unknown method is appended to both queues, not just one. -/
theorem fanout_to_all_subscribers_witness :
    dispatch fetchUnavailable (.obj [("method", .str "nope")]) =
      .ok ⟨.null, .failure (-32601) "Method not found: nope"⟩ ∧
    (handle_message fetchUnavailable [[], []] (.obj [("method", .str "nope")])).1 =
      [[⟨.null, .failure (-32601) "Method not found: nope"⟩],
       [⟨.null, .failure (-32601) "Method not found: nope"⟩]] :=
  ⟨rfl, by
    have h := fanout_to_all_subscribers fetchUnavailable [[], []]
      (.obj [("method", .str "nope")])
      ⟨.null, .failure (-32601) "Method not found: nope"⟩ rfl
    simpa using h⟩

/-- C7.  On the client's stream-reading path, a frame whose payload fails
to decode is dropped and the reader continues with the remaining frames
(the listener is a total function — nothing raises past it and the
session is not terminated), while every successfully decoded frame is
enqueued for correlation in order. -/
theorem listener_drops_malformed_frames (decode : String → Except Unit Json)
    (frame : String) (rest : List String) :
    (∀ e, decode frame = .error e →
        sse_listener decode (frame :: rest) = sse_listener decode rest) ∧
    (∀ v, decode frame = .ok v →
        sse_listener decode (frame :: rest) = v :: sse_listener decode rest) := by
  constructor <;> intro x hx <;> simp [sse_listener, hx]

/-- C7, witness: with the concrete decoder `decodeStub`, the malformed
frame "bad" amid two good frames is dropped while both good frames are
enqueued. -/
theorem listener_drops_malformed_frames_witness :
    decodeStub "bad" = .error () ∧
    sse_listener decodeStub ["a", "bad", "b"] = [.str "a", .str "b"] ∧
    sse_listener decodeStub ["bad", "b"] = sse_listener decodeStub ["b"] :=
  ⟨rfl, rfl, (listener_drops_malformed_frames decodeStub "bad" ["b"]).1 () rfl⟩

/-- C8.  The `initialize` method is idempotent: the dispatcher keeps no
per-session state (it is a pure function of the request body alone), and
every request whose method is "initialize" — the first call or any
repetition, whatever happened before — receives the same Success result
`initResult`, whose negotiated protocol version is "2024-11-05"; no
error envelope is ever produced for it. -/
theorem handshake_idempotent (fetch : String → Except String Json)
    (fields : List (String × Json))
    (h : ((fields.lookup "method").getD .null).pyEqStr "initialize" = true) :
    dispatch fetch (.obj fields) =
      .ok ⟨(fields.lookup "id").getD .null, .success initResult⟩ ∧
    initResult.pyIndexStr "protocolVersion" = .ok (.str "2024-11-05") := by
  constructor
  · simp [dispatch, Json.pyGet, exceptBind_ok, exceptPure, h]
  · rfl

/-- C8, witness: a first and a second `initialize` call (ids 1 and 2)
both succeed with the identical negotiated result `initResult`. -/
theorem handshake_idempotent_witness :
    ((([("method", Json.str "initialize"), ("id", Json.num 1)] :
        List (String × Json)).lookup "method").getD .null).pyEqStr "initialize" = true ∧
    dispatch fetchUnavailable (.obj [("method", .str "initialize"), ("id", .num 1)]) =
      .ok ⟨.num 1, .success initResult⟩ ∧
    dispatch fetchUnavailable (.obj [("method", .str "initialize"), ("id", .num 2)]) =
      .ok ⟨.num 2, .success initResult⟩ :=
  ⟨rfl,
   (handshake_idempotent fetchUnavailable
     [("method", .str "initialize"), ("id", .num 1)] rfl).1,
   (handshake_idempotent fetchUnavailable
     [("method", .str "initialize"), ("id", .num 2)] rfl).1⟩

/-- Auxiliary for C9: a successful run of the forecast loop yields one
line per input day. -/
theorem forecastLinesM_length (l : List Json) (ls : List String)
    (h : forecastLinesM l = .ok ls) : ls.length = l.length := by
  induction l generalizing ls with
  | nil =>
      simp [forecastLinesM] at h
      simp [← h]
  | cons d ds ih =>
      cases hd : forecastLine d with
      | error e => simp [forecastLinesM, hd, exceptBind_error] at h
      | ok line =>
          cases hds : forecastLinesM ds with
          | error e =>
              simp [forecastLinesM, hd, hds, exceptBind_ok, exceptBind_error] at h
          | ok rest =>
              simp [forecastLinesM, hd, hds, exceptBind_ok, exceptPure] at h
              simp [← h, ih rest hds]

/-- C9.  A `tools/call` of `get_forecast` whose arguments carry a city
but omit `days` does not fail: `arguments.get("days", 3)` substitutes
the default 3, and (when the weather fetch succeeds) the collaborator
returns a Success content block containing the forecast for the first
`min 3 |weather|` days — at most 3 lines — even though the declared
input schema of `get_forecast` lists `days` among the required fields. -/
theorem forecast_days_default (fetch : String → Except String Json)
    (city data : Json) (ws : List Json) (lines : List String)
    (hcity : city.truthy = true)
    (hfetch : fetch ("https://wttr.in/" ++ city.pyStr ++ "?format=j1") = .ok data)
    (hweather : data.pyIndexStr "weather" = .ok (.arr ws))
    (hlines : forecastLinesM (ws.take 3) = .ok lines) :
    call_tool fetch (.str "get_forecast") (.obj [("city", city)]) =
      .ok [⟨"text", String.intercalate "\n"
        (("3-Day Weather Forecast for " ++ city.pyStr ++ ":\n") :: lines)⟩] ∧
    lines.length ≤ 3 ∧
    get_forecast_tool.inputSchema.pyIndexStr "required" =
      .ok (.arr [.str "city", .str "days"]) := by
  refine ⟨?_, ?_, rfl⟩
  · have htake : pyTake ws (3 : Int) = ws.take 3 := by
      simp [pyTake]
    simp [call_tool, forecastText, fetch_weather_data, Json.pyGet, List.lookup,
      hcity, hfetch, hweather, Json.pySliceTo, htake, hlines, Json.pyIter,
      exceptBind_ok, exceptBind_error, exceptPure,
      show (Json.str "get_forecast").pyEqStr "get_current_weather" = false from rfl,
      show (Json.str "get_forecast").pyEqStr "get_forecast" = true from rfl,
      show (Json.num 3).pyStr = "3" from rfl]
  · have hlen := forecastLinesM_length _ _ hlines
    rw [hlen]
    exact List.length_take_le 3 ws

/-- C9, witness: Tokyo with four forecast days available and no `days`
argument; the result is the 3-day forecast text. -/
theorem forecast_days_default_witness :
    (Json.str "Tokyo").truthy = true ∧
    call_tool fetchTokyo (.str "get_forecast") (.obj [("city", .str "Tokyo")]) =
      .ok [⟨"text", "3-Day Weather Forecast for Tokyo:\n\n📅 2026-10-12: 10°C - 20°C, Sunny\n📅 2026-10-13: 11°C - 21°C, Rain\n📅 2026-10-14: 12°C - 22°C, Cloudy"⟩] :=
  ⟨rfl, by
    have h := forecast_days_default fetchTokyo (.str "Tokyo")
      (.obj [("weather", .arr
        [dayJson "2026-10-12" "20" "10" "Sunny",
         dayJson "2026-10-13" "21" "11" "Rain",
         dayJson "2026-10-14" "22" "12" "Cloudy",
         dayJson "2026-10-15" "23" "13" "Snow"])])
      [dayJson "2026-10-12" "20" "10" "Sunny",
       dayJson "2026-10-13" "21" "11" "Rain",
       dayJson "2026-10-14" "22" "12" "Cloudy",
       dayJson "2026-10-15" "23" "13" "Snow"]
      ["📅 2026-10-12: 10°C - 20°C, Sunny",
       "📅 2026-10-13: 11°C - 21°C, Rain",
       "📅 2026-10-14: 12°C - 22°C, Cloudy"]
      rfl rfl rfl rfl
    simpa using h.1⟩

/-- C10, counterexample.  The claim says every well-formed JSON request
body posted to the message endpoint gets the fixed `{"status": "ok"}`
200 reply.  The JSON array `[]` is a well-formed JSON body, yet
`body.get("method")` raises `AttributeError` on it, so the endpoint
instead answers 500 with an `{"error": ...}` body and fans out no
envelope. -/
theorem http_reply_counterexample :
    handle_message fetchUnavailable [[]] (.arr []) =
      ([[]], .serverError (.obj [("error",
        .str "'list' object has no attribute 'get'")])) ∧
    (handle_message fetchUnavailable [[]] (.arr [])).2.status = 500 :=
  ⟨rfl, rfl⟩

/-- C10, amended.  When processing the posted body raises no exception —
in particular for every JSON object body whose `params` and `arguments`
are objects where used — the direct HTTP reply is always the fixed body
`{"status": "ok"}` with status 200, identical whether the computed
envelope is a Success or a Failure, and the envelope itself travels only
over the SSE queues.  When processing raises (e.g. a non-object body),
the reply is instead a 500 `{"error": str(e)}` and no envelope is
delivered to any queue. -/
theorem http_reply_status (fetch : String → Except String Json)
    (subs : List (List RpcResponse)) (body : Json) :
    (∀ response, dispatch fetch body = .ok response →
        (handle_message fetch subs body).2 = .ok (.obj [("status", .str "ok")]) ∧
        (handle_message fetch subs body).2.status = 200) ∧
    (∀ e, dispatch fetch body = .error e →
        (handle_message fetch subs body).2 =
          .serverError (.obj [("error", .str e)]) ∧
        (handle_message fetch subs body).2.status = 500 ∧
        (handle_message fetch subs body).1 = subs) := by
  constructor
  · intro response h
    constructor <;> simp [handle_message, h, HttpReply.status]
  · intro e h
    refine ⟨?_, ?_, ?_⟩ <;> simp [handle_message, h, HttpReply.status]

/-- C10, witness for the amended theorem: an unknown-method request whose
envelope is a Failure still gets the 200 `{"status": "ok"}` reply, and
the non-object body `[]` gets the 500 reply. -/
theorem http_reply_status_witness :
    (handle_message fetchUnavailable [[]] (.obj [("method", .str "nope")])).2 =
      .ok (.obj [("status", .str "ok")]) ∧
    (handle_message fetchUnavailable [[]] (.arr [])).2.status = 500 :=
  ⟨((http_reply_status fetchUnavailable [[]] (.obj [("method", .str "nope")])).1
      ⟨.null, .failure (-32601) "Method not found: nope"⟩ rfl).1,
   ((http_reply_status fetchUnavailable [[]] (.arr [])).2
      "'list' object has no attribute 'get'" rfl).2.1⟩

end McpDemo
